import Mathlib

/-!
Verification of the monthly simulation engine of the real-estate calculator.

The development shallowly embeds the Python modules of the repository:
`core/mortgage_utils.py`, `core/tax_utils.py`,
`core/homeownership_simulation.py`, `core/rental_simulation.py` and the
legacy `core/simulation.py`.  All machine floats of the source are modelled
by exact rationals; fallible Python operations (division by a zero
denominator, indexing an empty frame, reading an unassigned name) are
modelled with `Option` / `Except`.  The fractional-exponent appreciation
`(1 + appreciation_rate) ** ((month - 1) / 12)` is modelled by a parameter
`monthly_growth` standing for the real number
`(1 + appreciation_rate) ^ (1/12)`, so that the property value of month m
is `purchase_price * monthly_growth ^ (m - 1)`, which is exactly the
source expression.
-/

namespace MortgageUtils

/-- One row of the amortization schedule (mortgage_utils.py lines 37-43):
the dict with keys month, payment, principal, interest, balance. -/
structure Entry where
  month : ℕ
  payment : ℚ
  principal : ℚ
  interest : ℚ
  balance : ℚ
  deriving Repr, DecidableEq, Inhabited

/-- Python calculate_monthly_payment (mortgage_utils.py lines 8-17).
When the denominator is zero Python raises ZeroDivisionError, modelled
as `none`. -/
def calculate_monthly_payment (principal annual_rate : ℚ) (years : ℕ) : Option ℚ :=
  if annual_rate = 0 then
    if ((years : ℚ) * 12) = 0 then none
    else some (principal / ((years : ℚ) * 12))
  else
    let monthly_rate := annual_rate / 12
    let num_payments := years * 12
    if (1 + monthly_rate) ^ num_payments - 1 = 0 then none
    else some (principal * (monthly_rate * (1 + monthly_rate) ^ num_payments) /
               ((1 + monthly_rate) ^ num_payments - 1))

/-- Rows of the schedule loop (mortgage_utils.py lines 32-43) for months
m, m+1, ... (n rows), threading the unclamped running balance exactly as
the Python loop does; the stored balance is `max 0 balance`. -/
def scheduleFrom (monthly_payment monthly_rate : ℚ) (balance : ℚ) (m n : ℕ) : List Entry :=
  match n with
  | 0 => []
  | Nat.succ k =>
    let interest_payment := balance * monthly_rate
    let principal_payment := monthly_payment - interest_payment
    let balance2 := balance - principal_payment
    { month := m, payment := monthly_payment, principal := principal_payment,
      interest := interest_payment, balance := max 0 balance2 } ::
      scheduleFrom monthly_payment monthly_rate balance2 (m + 1) k

/-- Python calculate_amortization_schedule (mortgage_utils.py lines 20-45). -/
def calculate_amortization_schedule (principal annual_rate : ℚ) (years : ℕ) :
    Option (List Entry) :=
  (calculate_monthly_payment principal annual_rate years).map fun monthly_payment =>
    scheduleFrom monthly_payment (annual_rate / 12) principal 1 (years * 12)

/-- Unclamped running balance after n payments, following the same
recurrence `balance -= monthly_payment - balance * monthly_rate` that the
schedule loop threads. -/
def balanceAfter (monthly_payment monthly_rate : ℚ) (balance : ℚ) : ℕ → ℚ
  | 0 => balance
  | Nat.succ n =>
    balanceAfter monthly_payment monthly_rate
      (balance - (monthly_payment - balance * monthly_rate)) n

end MortgageUtils

namespace TaxUtils

/-- Python calculate_capital_gains_tax (tax_utils.py lines 11-23).  The
default arguments of the source are tax_rate_short = 0.25 and
tax_rate_long = 0.15. -/
def calculate_capital_gains_tax (gain holding_period_years tax_rate_short tax_rate_long : ℚ) : ℚ :=
  if gain ≤ 0 then 0
  else if holding_period_years < 1 then gain * tax_rate_short
  else gain * tax_rate_long

end TaxUtils

/-- Generic runner for the append-style month loops of the clean
simulation modules: record k (0-based) is built by `f` from the list of
records appended so far and the 1-based month number k+1. -/
def buildList {α : Type} (f : List α → ℕ → α) (n : ℕ) : List α :=
  (List.range n).foldl (fun acc i => acc ++ [f acc (i + 1)]) []

namespace HomeSim

/-- Parameter bundle of simulate_homeownership
(homeownership_simulation.py lines 62-75).  `monthly_growth` models the
real number `(1 + appreciation_rate) ^ (1/12)` so that the appreciation
`purchase_price * (1 + appreciation_rate) ** ((month - 1) / 12)` of the
source is `purchase_price * monthly_growth ^ (month - 1)`. -/
structure Params where
  purchase_price : ℚ
  down_payment_pct : ℚ
  mortgage_rate : ℚ
  mortgage_years : ℕ
  closing_costs_pct : ℚ
  selling_cost_pct : ℚ
  monthly_growth : ℚ
  property_tax_rate : ℚ
  hoa_monthly : ℚ
  insurance_monthly : ℚ
  maintenance_rate : ℚ
  tax_bracket : ℚ
  years : ℕ
  deriving Repr, DecidableEq, Inhabited

/-- One monthly record of simulate_homeownership
(homeownership_simulation.py lines 142-163). -/
structure Monthly where
  month : ℕ
  year : ℕ
  property_value : ℚ
  mortgage_payment : ℚ
  principal_payment : ℚ
  interest_payment : ℚ
  remaining_balance : ℚ
  property_tax_monthly : ℚ
  hoa : ℚ
  insurance : ℚ
  maintenance : ℚ
  total_costs_before_tax : ℚ
  monthly_tax_benefit : ℚ
  true_monthly_cost : ℚ
  unrecoverable : ℚ
  cumulative_unrecoverable : ℚ
  cumulative_tax_benefits : ℚ
  cumulative_true_cost : ℚ
  equity : ℚ
  net_proceeds : ℚ
  deriving Repr, DecidableEq, Inhabited

/-- One iteration of the month loop of simulate_homeownership
(homeownership_simulation.py lines 90-163), given the list monthly_data
of previously appended records.  As the source does (lines 130-132), the
cumulative fields re-sum the previous records when monthly_data is
non-empty. -/
def homeMonth (p : Params) (amort : List MortgageUtils.Entry) (closing_costs : ℚ)
    (monthly_data : List Monthly) (month : ℕ) : Monthly :=
  let year_num := (month - 1) / 12 + 1
  let property_value := p.purchase_price * p.monthly_growth ^ (month - 1)
  let row := amort.get? (month - 1)
  let mortgage_payment := (row.map MortgageUtils.Entry.payment).getD 0
  let principal_payment := (row.map MortgageUtils.Entry.principal).getD 0
  let interest_payment := (row.map MortgageUtils.Entry.interest).getD 0
  let remaining_balance := (row.map MortgageUtils.Entry.balance).getD 0
  let property_tax_monthly := property_value * p.property_tax_rate / 12
  let maintenance_monthly := property_value * p.maintenance_rate / 12
  let monthly_tax_benefit := (interest_payment + property_tax_monthly) * p.tax_bracket
  let total_costs_before_tax := mortgage_payment + property_tax_monthly +
    p.insurance_monthly + p.hoa_monthly + maintenance_monthly
  let true_monthly_cost := total_costs_before_tax - monthly_tax_benefit
  let unrecoverable0 := interest_payment + property_tax_monthly +
    p.insurance_monthly + p.hoa_monthly + maintenance_monthly
  let unrecoverable := if month = 1 then unrecoverable0 + closing_costs else unrecoverable0
  let cumulative_unrecoverable := if monthly_data = [] then unrecoverable
    else (monthly_data.map Monthly.unrecoverable).sum + unrecoverable
  let cumulative_tax_benefits := if monthly_data = [] then monthly_tax_benefit
    else (monthly_data.map Monthly.monthly_tax_benefit).sum + monthly_tax_benefit
  let cumulative_true_cost := if monthly_data = [] then true_monthly_cost
    else (monthly_data.map Monthly.true_monthly_cost).sum + true_monthly_cost
  let equity := property_value - remaining_balance
  let selling_costs := property_value * p.selling_cost_pct
  let net_proceeds := property_value - remaining_balance - selling_costs
  { month := month, year := year_num, property_value := property_value,
    mortgage_payment := mortgage_payment, principal_payment := principal_payment,
    interest_payment := interest_payment, remaining_balance := remaining_balance,
    property_tax_monthly := property_tax_monthly, hoa := p.hoa_monthly,
    insurance := p.insurance_monthly, maintenance := maintenance_monthly,
    total_costs_before_tax := total_costs_before_tax,
    monthly_tax_benefit := monthly_tax_benefit, true_monthly_cost := true_monthly_cost,
    unrecoverable := unrecoverable, cumulative_unrecoverable := cumulative_unrecoverable,
    cumulative_tax_benefits := cumulative_tax_benefits,
    cumulative_true_cost := cumulative_true_cost, equity := equity,
    net_proceeds := net_proceeds }

/-- Python simulate_homeownership (homeownership_simulation.py lines
46-192), monthly records part.  `none` models the ZeroDivisionError that
calculate_monthly_payment raises for a degenerate mortgage term. -/
def simulate_homeownership (p : Params) : Option (List Monthly) :=
  let down_payment := p.purchase_price * p.down_payment_pct
  let closing_costs := p.purchase_price * p.closing_costs_pct
  let loan_amount := p.purchase_price - down_payment
  (MortgageUtils.calculate_amortization_schedule loan_amount p.mortgage_rate
      p.mortgage_years).map fun amort =>
    buildList (homeMonth p amort closing_costs) (p.years * 12)

/-- Summary dict of simulate_homeownership (homeownership_simulation.py
lines 167-187). -/
structure Summary where
  initial_payment : ℚ
  final_property_value : ℚ
  final_equity : ℚ
  selling_costs : ℚ
  final_net_proceeds : ℚ
  total_unrecoverable_costs : ℚ
  total_tax_benefits : ℚ
  total_true_cost : ℚ
  total_principal_paid : ℚ
  deriving Repr, DecidableEq, Inhabited

/-- Summary construction of simulate_homeownership; `df.iloc[-1]` on the
empty monthly frame raises IndexError in Python, modelled by `none` via
`getLast?`. -/
def homeSummary (p : Params) : Option Summary :=
  (simulate_homeownership p).bind fun df =>
    df.getLast?.map fun last =>
      let down_payment := p.purchase_price * p.down_payment_pct
      let closing_costs := p.purchase_price * p.closing_costs_pct
      let initial_investment := down_payment + closing_costs
      let final_selling_costs := last.property_value * p.selling_cost_pct
      { initial_payment := initial_investment,
        final_property_value := last.property_value,
        final_equity := last.property_value - last.remaining_balance,
        selling_costs := final_selling_costs,
        final_net_proceeds := last.property_value - last.remaining_balance -
          final_selling_costs,
        total_unrecoverable_costs := last.cumulative_unrecoverable,
        total_tax_benefits := last.cumulative_tax_benefits,
        total_true_cost := last.cumulative_true_cost + final_selling_costs,
        total_principal_paid := (df.map Monthly.principal_payment).sum }

/-- Parameter bundle of simulate_rent_and_invest
(homeownership_simulation.py lines 211-218). -/
structure RentParams where
  initial_investment : ℚ
  monthly_rent : ℚ
  rent_increase_rate : ℚ
  stock_return_rate : ℚ
  dividend_yield : ℚ
  tax_bracket : ℚ
  years : ℕ
  deriving Repr, DecidableEq, Inhabited

/-- One monthly record of simulate_rent_and_invest
(homeownership_simulation.py lines 275-289). -/
structure RentMonthly where
  month : ℕ
  year : ℕ
  portfolio_value : ℚ
  monthly_rent : ℚ
  cumulative_rent : ℚ
  monthly_contribution : ℚ
  monthly_dividend : ℚ
  monthly_operating_income : ℚ
  cumulative_operating_income : ℚ
  dividend_tax : ℚ
  cumulative_dividend_tax : ℚ
  cumulative_cost : ℚ
  net_proceeds : ℚ
  deriving Repr, DecidableEq, Inhabited

/-- Loop-carried state of simulate_rent_and_invest
(homeownership_simulation.py lines 224-228). -/
structure RentState where
  portfolio_value : ℚ
  cumulative_rent : ℚ
  cumulative_dividends : ℚ
  cumulative_dividend_tax : ℚ
  annual_dividends : ℚ
  deriving Repr, DecidableEq, Inhabited

/-- One iteration of the month loop of simulate_rent_and_invest
(homeownership_simulation.py lines 230-289).  `costs` is the
homeownership_true_monthly_costs argument; Python indexes it with
`costs[month - 1]`, always in range for the length the caller supplies
(page 2 passes exactly years*12 entries), modelled by `getD`. -/
def rentStep (p : RentParams) (costs : List ℚ) (st : RentState)
    (monthly_data : List RentMonthly) (month : ℕ) : RentState × RentMonthly :=
  let year_num := (month - 1) / 12 + 1
  let month_in_year := (month - 1) % 12 + 1
  let current_rent := p.monthly_rent * (1 + p.rent_increase_rate) ^ ((month - 1) / 12)
  let cumulative_rent := st.cumulative_rent + current_rent
  let homeownership_cost := costs.getD (month - 1) 0
  let monthly_contribution := homeownership_cost - current_rent
  let monthly_return := p.stock_return_rate / 12
  let portfolio_value := st.portfolio_value * (1 + monthly_return) + monthly_contribution
  let monthly_dividend := portfolio_value * (p.dividend_yield / 12)
  let annual_dividends := st.annual_dividends + monthly_dividend
  let cumulative_dividends := st.cumulative_dividends + monthly_dividend
  let monthly_operating_income := monthly_dividend
  let dividend_tax := if month_in_year = 12 then annual_dividends * p.tax_bracket else 0
  let cumulative_dividend_tax := if month_in_year = 12 then
    st.cumulative_dividend_tax + annual_dividends * p.tax_bracket
    else st.cumulative_dividend_tax
  let annual_after := if month_in_year = 12 then 0 else annual_dividends
  let net_proceeds := portfolio_value
  let cumulative_cost := cumulative_rent + cumulative_dividend_tax
  let cumulative_operating_income := if monthly_data = [] then monthly_operating_income
    else (monthly_data.map RentMonthly.monthly_operating_income).sum + monthly_operating_income
  (⟨portfolio_value, cumulative_rent, cumulative_dividends, cumulative_dividend_tax,
    annual_after⟩,
   ⟨month, year_num, portfolio_value, current_rent, cumulative_rent, monthly_contribution,
    monthly_dividend, monthly_operating_income, cumulative_operating_income, dividend_tax,
    cumulative_dividend_tax, cumulative_cost, net_proceeds⟩)

/-- Initial loop state of simulate_rent_and_invest
(homeownership_simulation.py lines 224-228). -/
def rentInit (p : RentParams) : RentState :=
  ⟨p.initial_investment, 0, 0, 0, 0⟩

/-- First n iterations of the simulate_rent_and_invest month loop:
final state and the records appended so far. -/
def rentRun (p : RentParams) (costs : List ℚ) : ℕ → RentState × List RentMonthly
  | 0 => (rentInit p, [])
  | Nat.succ n =>
    let sl := rentRun p costs n
    let sr := rentStep p costs sl.1 sl.2 (n + 1)
    (sr.1, sl.2 ++ [sr.2])

/-- Python simulate_rent_and_invest (homeownership_simulation.py lines
195-307), monthly records part. -/
def simulate_rent_and_invest (p : RentParams) (costs : List ℚ) : List RentMonthly :=
  (rentRun p costs (p.years * 12)).2

/-- Record of the 1-based month j of the simulate_rent_and_invest loop. -/
def rentRecord (p : RentParams) (costs : List ℚ) (j : ℕ) : RentMonthly :=
  (rentStep p costs (rentRun p costs (j - 1)).1 (rentRun p costs (j - 1)).2 j).2

end HomeSim

namespace RentalSim

/-- Parameter bundle of simulate_rental_property (rental_simulation.py
lines 59-73).  `monthly_growth` models `(1 + appreciation_rate) ^ (1/12)`
as in `HomeSim.Params`.  `selling_cost_pct` is carried by the parameter
dict the page builds but is never read by the source function, which
hard-codes a 6 percent selling-cost rate (line 180). -/
structure Params where
  purchase_price : ℚ
  down_payment_pct : ℚ
  mortgage_rate : ℚ
  mortgage_years : ℕ
  closing_costs_pct : ℚ
  monthly_growth : ℚ
  property_tax_rate : ℚ
  hoa_monthly : ℚ
  insurance_monthly : ℚ
  maintenance_rate : ℚ
  tax_bracket : ℚ
  monthly_rent : ℚ
  vacancy_rate : ℚ
  selling_cost_pct : ℚ
  years : ℕ
  deriving Repr, DecidableEq, Inhabited

/-- One monthly record of simulate_rental_property (rental_simulation.py
lines 153-173). -/
structure Monthly where
  month : ℕ
  year : ℕ
  property_value : ℚ
  mortgage_payment : ℚ
  principal_payment : ℚ
  interest_payment : ℚ
  remaining_balance : ℚ
  property_tax_monthly : ℚ
  hoa : ℚ
  insurance : ℚ
  maintenance : ℚ
  unrecoverable : ℚ
  monthly_tax_benefit : ℚ
  rental_income : ℚ
  true_cost : ℚ
  cumulative_true_cost : ℚ
  monthly_operating_income : ℚ
  cumulative_operating_income : ℚ
  net_proceeds : ℚ
  deriving Repr, DecidableEq, Inhabited

/-- One iteration of the month loop of simulate_rental_property
(rental_simulation.py lines 94-173).  The annual_rental_income,
annual_interest and annual_property_tax accumulators of the source
(lines 90-92, 136-138) are written but never read afterwards, so they do
not appear in the state.  The cumulative fields re-sum the previous
records exactly as lines 148 and 151 do. -/
def rentalMonth (p : Params) (amort : List MortgageUtils.Entry) (closing_costs : ℚ)
    (monthly_data : List Monthly) (month : ℕ) : Monthly :=
  let year_num := (month - 1) / 12 + 1
  let property_value := p.purchase_price * p.monthly_growth ^ (month - 1)
  let row := amort.get? (month - 1)
  let mortgage_payment := (row.map MortgageUtils.Entry.payment).getD 0
  let principal_payment := (row.map MortgageUtils.Entry.principal).getD 0
  let interest_payment := (row.map MortgageUtils.Entry.interest).getD 0
  let remaining_balance := (row.map MortgageUtils.Entry.balance).getD 0
  let property_tax_monthly := property_value * p.property_tax_rate / 12
  let maintenance_monthly := property_value * p.maintenance_rate / 12
  let unrecoverable0 := interest_payment + property_tax_monthly + p.hoa_monthly +
    p.insurance_monthly + maintenance_monthly
  let unrecoverable := if month = 1 then unrecoverable0 + closing_costs else unrecoverable0
  let monthly_tax_benefit := (interest_payment + property_tax_monthly) * p.tax_bracket
  let rental_income := p.monthly_rent * (1 - p.vacancy_rate)
  let true_cost := unrecoverable - rental_income - monthly_tax_benefit
  let monthly_operating_income := rental_income
  let net_proceeds := property_value - remaining_balance
  let cumulative_true_cost := if monthly_data = [] then true_cost
    else (monthly_data.map Monthly.true_cost).sum + true_cost
  let cumulative_operating_income := if monthly_data = [] then monthly_operating_income
    else (monthly_data.map Monthly.monthly_operating_income).sum + monthly_operating_income
  { month := month, year := year_num, property_value := property_value,
    mortgage_payment := mortgage_payment, principal_payment := principal_payment,
    interest_payment := interest_payment, remaining_balance := remaining_balance,
    property_tax_monthly := property_tax_monthly, hoa := p.hoa_monthly,
    insurance := p.insurance_monthly, maintenance := maintenance_monthly,
    unrecoverable := unrecoverable, monthly_tax_benefit := monthly_tax_benefit,
    rental_income := rental_income, true_cost := true_cost,
    cumulative_true_cost := cumulative_true_cost,
    monthly_operating_income := monthly_operating_income,
    cumulative_operating_income := cumulative_operating_income,
    net_proceeds := net_proceeds }

/-- Python simulate_rental_property (rental_simulation.py lines 46-203),
monthly records part. -/
def simulate_rental_property (p : Params) : Option (List Monthly) :=
  let down_payment := p.purchase_price * p.down_payment_pct
  let closing_costs := p.purchase_price * p.closing_costs_pct
  let loan_amount := p.purchase_price - down_payment
  (MortgageUtils.calculate_amortization_schedule loan_amount p.mortgage_rate
      p.mortgage_years).map fun amort =>
    buildList (rentalMonth p amort closing_costs) (p.years * 12)

/-- Summary dict of simulate_rental_property (rental_simulation.py lines
190-198). -/
structure Summary where
  initial_payment : ℚ
  final_property_value : ℚ
  selling_costs : ℚ
  final_net_proceeds : ℚ
  total_true_cost : ℚ
  total_operating_income : ℚ
  total_rental_income : ℚ
  deriving Repr, DecidableEq, Inhabited

/-- Summary construction of simulate_rental_property (rental_simulation.py
lines 177-198): the selling costs use the hard-coded 6 percent rate of
line 180.  `df.iloc[-1]` on the empty frame raises IndexError, modelled
by `none` via `getLast?`. -/
def rentalSummary (p : Params) : Option Summary :=
  (simulate_rental_property p).bind fun df =>
    df.getLast?.map fun last =>
      let down_payment := p.purchase_price * p.down_payment_pct
      let closing_costs := p.purchase_price * p.closing_costs_pct
      let initial_investment := down_payment + closing_costs
      let selling_costs := last.property_value * (6 / 100)
      { initial_payment := initial_investment,
        final_property_value := last.property_value,
        selling_costs := selling_costs,
        final_net_proceeds := last.property_value - selling_costs -
          last.remaining_balance,
        total_true_cost := last.cumulative_true_cost + selling_costs,
        total_operating_income := last.cumulative_operating_income,
        total_rental_income := (df.map Monthly.rental_income).sum }

/-- Parameter bundle of simulate_stock_investment (rental_simulation.py
lines 217-222). -/
structure StockParams where
  initial_investment : ℚ
  stock_return_rate : ℚ
  dividend_yield : ℚ
  tax_bracket : ℚ
  years : ℕ
  deriving Repr, DecidableEq, Inhabited

/-- One monthly record of simulate_stock_investment (rental_simulation.py
lines 272-283). -/
structure StockMonthly where
  month : ℕ
  year : ℕ
  portfolio_value : ℚ
  monthly_contribution : ℚ
  monthly_dividend : ℚ
  monthly_operating_income : ℚ
  cumulative_operating_income : ℚ
  dividend_tax : ℚ
  cumulative_cost : ℚ
  net_proceeds : ℚ
  deriving Repr, DecidableEq, Inhabited

/-- Loop-carried state of simulate_stock_investment (rental_simulation.py
lines 228-231).  cumulative_cost is stored in the record as the running
cumulative_dividend_tax (line 267). -/
structure StockState where
  portfolio_value : ℚ
  cumulative_dividends : ℚ
  cumulative_dividend_tax : ℚ
  annual_dividends : ℚ
  deriving Repr, DecidableEq, Inhabited

/-- One iteration of the month loop of simulate_stock_investment
(rental_simulation.py lines 233-283).  `expenses` is the
rental_monthly_expenses argument, indexed as `expenses[month - 1]`. -/
def stockStep (p : StockParams) (expenses : List ℚ) (st : StockState)
    (monthly_data : List StockMonthly) (month : ℕ) : StockState × StockMonthly :=
  let year_num := (month - 1) / 12 + 1
  let month_in_year := (month - 1) % 12 + 1
  let monthly_contribution := expenses.getD (month - 1) 0
  let monthly_return := p.stock_return_rate / 12
  let portfolio_value := st.portfolio_value * (1 + monthly_return) + monthly_contribution
  let monthly_dividend := portfolio_value * (p.dividend_yield / 12)
  let annual_dividends := st.annual_dividends + monthly_dividend
  let cumulative_dividends := st.cumulative_dividends + monthly_dividend
  let monthly_operating_income := monthly_dividend
  let dividend_tax := if month_in_year = 12 then annual_dividends * p.tax_bracket else 0
  let cumulative_dividend_tax := if month_in_year = 12 then
    st.cumulative_dividend_tax + annual_dividends * p.tax_bracket
    else st.cumulative_dividend_tax
  let annual_after := if month_in_year = 12 then 0 else annual_dividends
  let net_proceeds := portfolio_value
  let cumulative_cost := cumulative_dividend_tax
  let cumulative_operating_income := if monthly_data = [] then monthly_operating_income
    else (monthly_data.map StockMonthly.monthly_operating_income).sum + monthly_operating_income
  (⟨portfolio_value, cumulative_dividends, cumulative_dividend_tax, annual_after⟩,
   ⟨month, year_num, portfolio_value, monthly_contribution, monthly_dividend,
    monthly_operating_income, cumulative_operating_income, dividend_tax,
    cumulative_cost, net_proceeds⟩)

/-- Initial loop state of simulate_stock_investment (rental_simulation.py
lines 228-231). -/
def stockInit (p : StockParams) : StockState :=
  ⟨p.initial_investment, 0, 0, 0⟩

/-- First n iterations of the simulate_stock_investment month loop. -/
def stockRun (p : StockParams) (expenses : List ℚ) : ℕ → StockState × List StockMonthly
  | 0 => (stockInit p, [])
  | Nat.succ n =>
    let sl := stockRun p expenses n
    let sr := stockStep p expenses sl.1 sl.2 (n + 1)
    (sr.1, sl.2 ++ [sr.2])

/-- Python simulate_stock_investment (rental_simulation.py lines 206-299),
monthly records part. -/
def simulate_stock_investment (p : StockParams) (expenses : List ℚ) : List StockMonthly :=
  (stockRun p expenses (p.years * 12)).2

/-- Record of the 1-based month j of the simulate_stock_investment loop. -/
def stockRecord (p : StockParams) (expenses : List ℚ) (j : ℕ) : StockMonthly :=
  (stockStep p expenses (stockRun p expenses (j - 1)).1 (stockRun p expenses (j - 1)).2 j).2

end RentalSim

namespace SimPy

/-- Parameter bundle of the legacy simulate_homeownership
(simulation.py lines 21-35).  `appreciation_rate` is kept for the local
namespace; `monthly_growth` models `(1 + appreciation_rate) ^ (1/12)` as
in `HomeSim.Params`. -/
structure Params where
  purchase_price : ℚ
  down_payment_pct : ℚ
  mortgage_rate : ℚ
  mortgage_years : ℕ
  closing_costs_pct : ℚ
  appreciation_rate : ℚ
  monthly_growth : ℚ
  property_tax_rate : ℚ
  hoa_monthly : ℚ
  insurance_monthly : ℚ
  maintenance_rate : ℚ
  tax_bracket : ℚ
  selling_cost_pct : ℚ
  inflation_rate : ℚ
  years : ℕ
  deriving Repr, DecidableEq, Inhabited

/-- Lookup of a Python name in the local scalar namespace. -/
def lookupVar : List (String × ℚ) → String → Option ℚ
  | [], _ => none
  | (k, v) :: rest, n => if k = n then some v else lookupVar rest n

/-- The dict literal appended by the legacy simulate_homeownership
(simulation.py lines 108-127): each record key paired with the Python
name its value expression reads. -/
def recordRefs : List (String × String) :=
  [("month", "month"), ("year", "year"), ("property_value", "property_value"),
   ("mortgage_payment", "mortgage_payment"), ("principal_payment", "principal_payment"),
   ("interest_payment", "interest_payment"), ("property_tax", "property_tax"),
   ("hoa", "hoa_monthly"), ("insurance", "insurance_monthly"),
   ("maintenance", "maintenance"), ("total_monthly_cost", "total_monthly_cost"),
   ("unrecoverable_cost", "unrecoverable"), ("remaining_balance", "remaining_balance"),
   ("equity", "equity"), ("monthly_operating_income", "monthly_operating_income"),
   ("cumulative_operating_income", "cumulative_operating_income"),
   ("cumulative_unrecoverable", "cumulative_unrecoverable"), ("net_worth", "net_worth")]

/-- Evaluation of the dict literal: each value expression reads a name
from the local namespace, in order; a name that was never assigned
raises a NameError, modelled as `Except.error`. -/
def buildRecordGo (env : List (String × ℚ)) :
    List (String × String) → Except String (List (String × ℚ))
  | [] => Except.ok []
  | kv :: rest =>
    match lookupVar env kv.2 with
    | some v => (buildRecordGo env rest).map (fun l => (kv.1, v) :: l)
    | none => Except.error ("NameError: " ++ kv.2)

/-- Evaluation of the full monthly record dict of the legacy
simulate_homeownership. -/
def buildRecord (env : List (String × ℚ)) : Except String (List (String × ℚ)) :=
  buildRecordGo env recordRefs

/-- Month loop of the legacy simulate_homeownership (simulation.py lines
53-127).  The arguments after `amort` are the function-scope scalars;
the final three are remaining months, current 1-based month, and the two
running accumulators (lines 49-50).  The local namespace `env` holds
every scalar name the function body assigns; amortization, monthly_data,
monthly_expenses and params are not scalars and are not read by the
record dict.  Note the assignments never bind the name
monthly_operating_income. -/
def simLoop (p : Params) (amort : List MortgageUtils.Entry)
    (down_payment closing_costs loan_amount initial_investment : ℚ) :
    ℕ → ℕ → ℚ → ℚ → Except String (List (List (String × ℚ)))
  | 0, _, _, _ => Except.ok []
  | Nat.succ remaining, month, cumU, cumOI =>
    let year := ((month : ℚ) - 1) / 12
    let property_value := p.purchase_price * p.monthly_growth ^ (month - 1)
    let row := amort.get? (month - 1)
    let mortgage_payment := (row.map MortgageUtils.Entry.payment).getD 0
    let principal_payment := (row.map MortgageUtils.Entry.principal).getD 0
    let interest_payment := (row.map MortgageUtils.Entry.interest).getD 0
    let remaining_balance := (row.map MortgageUtils.Entry.balance).getD 0
    let property_tax := property_value * p.property_tax_rate / 12
    let maintenance := property_value * p.maintenance_rate / 12
    let total_monthly_cost := mortgage_payment + property_tax + p.hoa_monthly +
      p.insurance_monthly + maintenance
    let unrecoverable0 := interest_payment + property_tax + p.hoa_monthly +
      p.insurance_monthly + maintenance
    let unrecoverable := if month = 1 then unrecoverable0 + closing_costs else unrecoverable0
    let cumU2 := cumU + unrecoverable
    let total_monthly_expense := unrecoverable + principal_payment
    let monthly_tax_benefit := (interest_payment + property_tax) * (1 - p.tax_bracket)
    let cumOI2 := cumOI + monthly_tax_benefit
    let equity := property_value - remaining_balance
    let net_worth := if month = 1 then down_payment
      else property_value - remaining_balance - closing_costs + cumOI2
    let env : List (String × ℚ) :=
      [("purchase_price", p.purchase_price), ("down_payment_pct", p.down_payment_pct),
       ("mortgage_rate", p.mortgage_rate), ("mortgage_years", (p.mortgage_years : ℚ)),
       ("closing_costs_pct", p.closing_costs_pct),
       ("appreciation_rate", p.appreciation_rate),
       ("property_tax_rate", p.property_tax_rate), ("hoa_monthly", p.hoa_monthly),
       ("insurance_monthly", p.insurance_monthly),
       ("maintenance_rate", p.maintenance_rate), ("tax_bracket", p.tax_bracket),
       ("selling_cost_pct", p.selling_cost_pct), ("years", (p.years : ℚ)),
       ("inflation_rate", p.inflation_rate), ("down_payment", down_payment),
       ("closing_costs", closing_costs), ("loan_amount", loan_amount),
       ("initial_investment", initial_investment), ("months", ((p.years * 12 : ℕ) : ℚ)),
       ("cumulative_unrecoverable", cumU2), ("cumulative_operating_income", cumOI2),
       ("month", (month : ℚ)), ("year", year), ("property_value", property_value),
       ("mortgage_payment", mortgage_payment), ("principal_payment", principal_payment),
       ("interest_payment", interest_payment), ("remaining_balance", remaining_balance),
       ("property_tax", property_tax), ("maintenance", maintenance),
       ("total_monthly_cost", total_monthly_cost), ("unrecoverable", unrecoverable),
       ("total_monthly_expense", total_monthly_expense),
       ("monthly_tax_benefit", monthly_tax_benefit), ("equity", equity),
       ("net_worth", net_worth)]
    match buildRecord env with
    | Except.error e => Except.error e
    | Except.ok recd =>
      (simLoop p amort down_payment closing_costs loan_amount initial_investment
        remaining (month + 1) cumU2 cumOI2).map (fun l => recd :: l)

/-- Legacy simulate_homeownership (simulation.py lines 15-168), up to the
construction of the monthly records.  ZeroDivisionError from the payment
formula and NameError from the record dict propagate as `Except.error`. -/
def simulate_homeownership (p : Params) : Except String (List (List (String × ℚ))) :=
  let down_payment := p.purchase_price * p.down_payment_pct
  let closing_costs := p.purchase_price * p.closing_costs_pct
  let loan_amount := p.purchase_price - down_payment
  let initial_investment := down_payment + closing_costs
  match MortgageUtils.calculate_amortization_schedule loan_amount p.mortgage_rate
      p.mortgage_years with
  | none => Except.error "ZeroDivisionError"
  | some amort =>
    simLoop p amort down_payment closing_costs loan_amount initial_investment
      (p.years * 12) 1 0 0

end SimPy

/-! Concrete inputs used to evaluate the theorems on closed instances:
a 120-unit purchase fully financed at a zero rate over one year, so the
monthly payment is exactly 10, and zero-rate investment bundles. -/

def wHomeP : HomeSim.Params :=
  { purchase_price := 120, down_payment_pct := 0, mortgage_rate := 0,
    mortgage_years := 1, closing_costs_pct := 0, selling_cost_pct := 0,
    monthly_growth := 1, property_tax_rate := 0, hoa_monthly := 0,
    insurance_monthly := 0, maintenance_rate := 0, tax_bracket := 0, years := 1 }

/-- Amortization schedule of the concrete home loan: 120 at rate 0 over
one year, monthly payment 10. -/
def wAmort : List MortgageUtils.Entry := MortgageUtils.scheduleFrom 10 0 120 1 12

def wHomeB : List HomeSim.Monthly := buildList (HomeSim.homeMonth wHomeP wAmort 0) 12

def wHomeRec : HomeSim.Monthly := HomeSim.homeMonth wHomeP wAmort 0 [] 1

def wHomeRec2 : HomeSim.Monthly := HomeSim.homeMonth wHomeP wAmort 0 [wHomeRec] 2

/-- The same home parameters with a zero horizon. -/
def wZeroP : HomeSim.Params :=
  { wHomeP with years := 0 }

def wRentP : HomeSim.RentParams :=
  { initial_investment := 0, monthly_rent := 0, rent_increase_rate := 0,
    stock_return_rate := 0, dividend_yield := 0, tax_bracket := 0, years := 1 }

def wCosts : List ℚ := List.replicate 12 1

def wRentalP : RentalSim.Params :=
  { purchase_price := 120, down_payment_pct := 0, mortgage_rate := 0,
    mortgage_years := 1, closing_costs_pct := 0, monthly_growth := 1,
    property_tax_rate := 0, hoa_monthly := 0, insurance_monthly := 0,
    maintenance_rate := 0, tax_bracket := 0, monthly_rent := 0,
    vacancy_rate := 0, selling_cost_pct := 0, years := 1 }

def wRentalB : List RentalSim.Monthly :=
  buildList (RentalSim.rentalMonth wRentalP wAmort 0) 12

def wRentalRec : RentalSim.Monthly := RentalSim.rentalMonth wRentalP wAmort 0 [] 1

def wRentalRec2 : RentalSim.Monthly :=
  RentalSim.rentalMonth wRentalP wAmort 0 [wRentalRec] 2

def wRentalLast : RentalSim.Monthly :=
  RentalSim.rentalMonth wRentalP wAmort 0
    (buildList (RentalSim.rentalMonth wRentalP wAmort 0) 11) 12

/-- Summary of the concrete rental run, spelled out with the hard-coded
6 percent selling-cost rate of the source. -/
def wRentalSummary : RentalSim.Summary :=
  { initial_payment := wRentalP.purchase_price * wRentalP.down_payment_pct +
      wRentalP.purchase_price * wRentalP.closing_costs_pct,
    final_property_value := wRentalLast.property_value,
    selling_costs := wRentalLast.property_value * (6 / 100),
    final_net_proceeds := wRentalLast.property_value -
      wRentalLast.property_value * (6 / 100) - wRentalLast.remaining_balance,
    total_true_cost := wRentalLast.cumulative_true_cost +
      wRentalLast.property_value * (6 / 100),
    total_operating_income := wRentalLast.cumulative_operating_income,
    total_rental_income := (wRentalB.map RentalSim.Monthly.rental_income).sum }

def wStockP : RentalSim.StockParams :=
  { initial_investment := 0, stock_return_rate := 0, dividend_yield := 0,
    tax_bracket := 0, years := 1 }

def wExpenses : List ℚ := List.replicate 12 1

def wSimPyP : SimPy.Params :=
  { purchase_price := 120, down_payment_pct := 0, mortgage_rate := 0,
    mortgage_years := 1, closing_costs_pct := 0, appreciation_rate := 0,
    monthly_growth := 1, property_tax_rate := 0, hoa_monthly := 0,
    insurance_monthly := 0, maintenance_rate := 0, tax_bracket := 0,
    selling_cost_pct := 0, inflation_rate := 0, years := 1 }

/-! General lemmas about the append-style month loop. -/

theorem buildList_succ {α : Type} (f : List α → ℕ → α) (n : ℕ) :
    buildList f (n + 1) = buildList f n ++ [f (buildList f n) (n + 1)] := by
  unfold buildList
  rw [List.range_succ, List.foldl_append]
  rfl

theorem buildList_length {α : Type} (f : List α → ℕ → α) (n : ℕ) :
    (buildList f n).length = n := by
  induction n with
  | zero => rfl
  | succ n ih => rw [buildList_succ, List.length_append, ih]; rfl

theorem buildList_get? {α : Type} (f : List α → ℕ → α) :
    ∀ {n k : ℕ}, k < n → (buildList f n).get? k = some (f (buildList f k) (k + 1)) := by
  intro n
  induction n with
  | zero => intro k hk; omega
  | succ n ih =>
    intro k hk
    rw [buildList_succ]
    rcases Nat.lt_or_ge k n with h | h
    · rw [List.get?_append]
      · exact ih h
      · rw [buildList_length]; exact h
    · have hk2 : k = n := by omega
      subst hk2
      rw [List.get?_append_right (by rw [buildList_length])]
      rw [buildList_length, Nat.sub_self]
      rfl

theorem buildList_forall {α : Type} (f : List α → ℕ → α) (P : α → Prop)
    (hf : ∀ acc m, P (f acc m)) : ∀ n, ∀ x ∈ buildList f n, P x := by
  intro n
  induction n with
  | zero => intro x hx; simp [buildList] at hx
  | succ n ih =>
    intro x hx
    rw [buildList_succ, List.mem_append] at hx
    rcases hx with hx | hx
    · exact ih x hx
    · rw [List.mem_singleton] at hx
      subst hx
      exact hf _ _

theorem buildList_take {α : Type} (f : List α → ℕ → α) :
    ∀ {n m : ℕ}, m ≤ n → (buildList f n).take m = buildList f m := by
  intro n
  induction n with
  | zero => intro m hm; interval_cases m; rfl
  | succ n ih =>
    intro m hm
    rcases Nat.lt_or_ge m (n + 1) with h | h
    · rw [buildList_succ, List.take_append_of_le_length (by rw [buildList_length]; omega)]
      exact ih (by omega)
    · have hm2 : m = n + 1 := by omega
      subst hm2
      exact List.take_of_length_le (by rw [buildList_length])

/-- A cumulative field that the month builder computes as the sum of the
previous deltas plus the current delta satisfies the running-update
recurrence between consecutive records. -/
theorem buildList_cum_rec {α : Type} (f : List α → ℕ → α) (cum δ : α → ℚ)
    (hf : ∀ acc m, cum (f acc m) = (acc.map δ).sum + δ (f acc m))
    {n k : ℕ} {a b : α}
    (ha : (buildList f n).get? k = some a) (hb : (buildList f n).get? (k + 1) = some b) :
    cum b = cum a + δ b := by
  have hkn : k < n := by
    have := List.get?_eq_some.mp ha
    rcases this with ⟨h, _⟩
    rw [buildList_length] at h
    omega
  have hk1n : k + 1 < n := by
    have := List.get?_eq_some.mp hb
    rcases this with ⟨h, _⟩
    rw [buildList_length] at h
    omega
  have ha2 := buildList_get? f hkn
  have hb2 := buildList_get? f hk1n
  rw [ha2] at ha
  rw [hb2] at hb
  have haa : a = f (buildList f k) (k + 1) := by
    injection ha with h; exact h.symm
  have hbb : b = f (buildList f (k + 1)) (k + 2) := by
    injection hb with h; exact h.symm
  rw [haa, hbb, hf, hf, buildList_succ, List.map_append, List.sum_append]
  simp [← haa]

/-! C2 : the live-in simulator's tax benefit and true cost. -/

/-- C2: in the live-in ownership simulator (simulate_homeownership of
homeownership_simulation.py), every monthly record has
monthly tax benefit = (interest payment + monthly property tax) *
tax_bracket and true monthly cost = total monthly costs minus the tax
benefit. -/
theorem homeownership_tax_benefit_true_cost
    (p : HomeSim.Params) (l : List HomeSim.Monthly)
    (hl : HomeSim.simulate_homeownership p = some l) :
    ∀ rec ∈ l,
      rec.monthly_tax_benefit =
        (rec.interest_payment + rec.property_tax_monthly) * p.tax_bracket ∧
      rec.true_monthly_cost = rec.total_costs_before_tax - rec.monthly_tax_benefit := by
  unfold HomeSim.simulate_homeownership at hl
  rw [Option.map_eq_some'] at hl
  obtain ⟨amort, _, rfl⟩ := hl
  exact buildList_forall _ _ (fun acc m => ⟨rfl, rfl⟩) _

/-! Lemmas about the amortization schedule loop. -/

theorem scheduleFrom_length (P r : ℚ) :
    ∀ (n : ℕ) (b : ℚ) (m : ℕ), (MortgageUtils.scheduleFrom P r b m n).length = n := by
  intro n
  induction n with
  | zero => intro b m; rfl
  | succ n ih => intro b m; simp [MortgageUtils.scheduleFrom, ih]

theorem scheduleFrom_payment (P r : ℚ) :
    ∀ (n : ℕ) (b : ℚ) (m : ℕ), ∀ e ∈ MortgageUtils.scheduleFrom P r b m n,
      e.payment = P ∧ e.principal + e.interest = e.payment := by
  intro n
  induction n with
  | zero => intro b m e he; simp [MortgageUtils.scheduleFrom] at he
  | succ n ih =>
    intro b m e he
    simp only [MortgageUtils.scheduleFrom, List.mem_cons] at he
    rcases he with he | he
    · subst he
      exact ⟨rfl, by simp⟩
    · exact ih _ _ e he

theorem scheduleFrom_balance_nonneg (P r : ℚ) :
    ∀ (n : ℕ) (b : ℚ) (m : ℕ), ∀ e ∈ MortgageUtils.scheduleFrom P r b m n,
      0 ≤ e.balance := by
  intro n
  induction n with
  | zero => intro b m e he; simp [MortgageUtils.scheduleFrom] at he
  | succ n ih =>
    intro b m e he
    simp only [MortgageUtils.scheduleFrom, List.mem_cons] at he
    rcases he with he | he
    · subst he; exact le_max_left 0 _
    · exact ih _ _ e he

theorem balanceAfter_closed (P r : ℚ) (hr : r ≠ 0) :
    ∀ (n : ℕ) (b : ℚ), MortgageUtils.balanceAfter P r b n =
      (1 + r) ^ n * b - P * ((1 + r) ^ n - 1) / r := by
  intro n
  induction n with
  | zero => intro b; simp [MortgageUtils.balanceAfter]
  | succ n ih =>
    intro b
    show MortgageUtils.balanceAfter P r (b - (P - b * r)) n = _
    rw [ih]
    field_simp
    ring

theorem scheduleFrom_sum_principal (P r : ℚ) :
    ∀ (n : ℕ) (b : ℚ) (m : ℕ),
      ((MortgageUtils.scheduleFrom P r b m n).map MortgageUtils.Entry.principal).sum =
        b - MortgageUtils.balanceAfter P r b n := by
  intro n
  induction n with
  | zero => intro b m; simp [MortgageUtils.scheduleFrom, MortgageUtils.balanceAfter]
  | succ n ih =>
    intro b m
    show ((MortgageUtils.scheduleFrom P r b m (n + 1)).map _).sum =
      b - MortgageUtils.balanceAfter P r (b - (P - b * r)) n
    simp only [MortgageUtils.scheduleFrom, List.map_cons, List.sum_cons]
    rw [ih]
    ring

theorem scheduleFrom_getLast_balance (P r : ℚ) :
    ∀ (n : ℕ) (b : ℚ) (m : ℕ),
      ((MortgageUtils.scheduleFrom P r b m (n + 1)).getLast?).map
          MortgageUtils.Entry.balance =
        some (max 0 (MortgageUtils.balanceAfter P r b (n + 1))) := by
  intro n
  induction n with
  | zero =>
    intro b m
    simp [MortgageUtils.scheduleFrom, MortgageUtils.balanceAfter]
  | succ n ih =>
    intro b m
    have step : MortgageUtils.scheduleFrom P r b m (n + 2) =
        { month := m, payment := P, principal := P - b * r, interest := b * r,
          balance := max 0 (b - (P - b * r)) } ::
          MortgageUtils.scheduleFrom P r (b - (P - b * r)) (m + 1) (n + 1) := rfl
    rw [step]
    have hne : MortgageUtils.scheduleFrom P r (b - (P - b * r)) (m + 1) (n + 1) ≠ [] := by
      intro h
      have := scheduleFrom_length P r (n + 1) (b - (P - b * r)) (m + 1)
      rw [h] at this
      simp at this
    obtain ⟨hd2, t2, ht⟩ := List.exists_cons_of_ne_nil hne
    rw [ht, List.getLast?_cons_cons, ← ht, ih]
    rfl

theorem scheduleFrom_chain (P r : ℚ) (hr : 0 ≤ r) :
    ∀ (n : ℕ) (b : ℚ) (m : ℕ), b * r ≤ P →
      List.Chain' (fun a e => e.balance ≤ a.balance)
        (MortgageUtils.scheduleFrom P r b m n) := by
  intro n
  induction n with
  | zero => intro b m _; simp [MortgageUtils.scheduleFrom]
  | succ n ih =>
    intro b m hb
    have hstep : 0 ≤ P - b * r := by linarith
    have hb2 : (b - (P - b * r)) * r ≤ P := by nlinarith [mul_nonneg hr hstep]
    have step : MortgageUtils.scheduleFrom P r b m (n + 1) =
        { month := m, payment := P, principal := P - b * r, interest := b * r,
          balance := max 0 (b - (P - b * r)) } ::
          MortgageUtils.scheduleFrom P r (b - (P - b * r)) (m + 1) n := rfl
    rw [step, List.chain'_cons']
    refine ⟨?_, ih _ _ hb2⟩
    intro y hy
    cases n with
    | zero => simp [MortgageUtils.scheduleFrom] at hy
    | succ k =>
      have step2 : MortgageUtils.scheduleFrom P r (b - (P - b * r)) (m + 1) (k + 1) =
          { month := m + 1, payment := P,
            principal := P - (b - (P - b * r)) * r,
            interest := (b - (P - b * r)) * r,
            balance := max 0 ((b - (P - b * r)) - (P - (b - (P - b * r)) * r)) } ::
            MortgageUtils.scheduleFrom P r
              ((b - (P - b * r)) - (P - (b - (P - b * r)) * r)) (m + 2) k := rfl
      rw [step2] at hy
      simp only [List.head?_cons, Option.mem_def, Option.some.injEq] at hy
      subst hy
      show max 0 ((b - (P - b * r)) - (P - (b - (P - b * r)) * r)) ≤ max 0 (b - (P - b * r))
      have : (b - (P - b * r)) - (P - (b - (P - b * r)) * r) ≤ b - (P - b * r) := by
        linarith
      exact max_le_max (le_refl 0) this

/-- Closed form of the monthly payment at a nonzero rate and a positive
horizon. -/
theorem monthly_payment_eq (principal annual_rate : ℚ) (years : ℕ)
    (hr : 0 < annual_rate) (hy : 1 ≤ years) :
    MortgageUtils.calculate_monthly_payment principal annual_rate years =
      some (principal * ((annual_rate / 12) * (1 + annual_rate / 12) ^ (years * 12)) /
        ((1 + annual_rate / 12) ^ (years * 12) - 1)) := by
  have hne : annual_rate ≠ 0 := ne_of_gt hr
  have hpow : 1 < (1 + annual_rate / 12) ^ (years * 12) := by
    refine one_lt_pow₀ (by linarith) (by omega)
  simp only [MortgageUtils.calculate_monthly_payment]
  rw [if_neg hne, if_neg (by intro h; rw [sub_eq_zero] at h; rw [h] at hpow; simp at hpow)]

/-- The annuity payment fully amortizes the loan: the unclamped balance
after all payments is exactly zero. -/
theorem annuity_balance_zero (L r : ℚ) (n : ℕ) (hr : r ≠ 0)
    (hD : (1 + r) ^ n - 1 ≠ 0) :
    MortgageUtils.balanceAfter (L * (r * (1 + r) ^ n) / ((1 + r) ^ n - 1)) r L n = 0 := by
  rw [balanceAfter_closed _ _ hr]
  field_simp
  ring

/-- C3: for every positive principal, positive rate and positive integer
term, calculate_amortization_schedule returns exactly years*12 rows, the
per-month principal payments sum to the original principal (exactly, in
the rational model), and the stored balance of the final row is 0. -/
theorem amortization_sum_principal_final_balance
    (principal annual_rate : ℚ) (years : ℕ)
    (hp : 0 < principal) (hr : 0 < annual_rate) (hy : 1 ≤ years) :
    ∃ sched,
      MortgageUtils.calculate_amortization_schedule principal annual_rate years =
        some sched ∧
      sched.length = years * 12 ∧
      (sched.map MortgageUtils.Entry.principal).sum = principal ∧
      sched.getLast?.map MortgageUtils.Entry.balance = some 0 := by
  have hpay := monthly_payment_eq principal annual_rate years hr hy
  have hr12 : (0 : ℚ) < annual_rate / 12 := by positivity
  have hrne : annual_rate / 12 ≠ 0 := ne_of_gt hr12
  have hpow : 1 < (1 + annual_rate / 12) ^ (years * 12) :=
    one_lt_pow₀ (by linarith) (by omega)
  have hD : (1 + annual_rate / 12) ^ (years * 12) - 1 ≠ 0 := by
    intro h; linarith
  have hzero := annuity_balance_zero principal (annual_rate / 12) (years * 12) hrne hD
  refine ⟨MortgageUtils.scheduleFrom
      (principal * ((annual_rate / 12) * (1 + annual_rate / 12) ^ (years * 12)) /
        ((1 + annual_rate / 12) ^ (years * 12) - 1))
      (annual_rate / 12) principal 1 (years * 12), ?_, ?_, ?_, ?_⟩
  · simp only [MortgageUtils.calculate_amortization_schedule, hpay, Option.map_some']
  · exact scheduleFrom_length _ _ _ _ _
  · rw [scheduleFrom_sum_principal, hzero, sub_zero]
  · obtain ⟨k, hk⟩ : ∃ k, years * 12 = k + 1 := ⟨years * 12 - 1, by omega⟩
    rw [hk, scheduleFrom_getLast_balance, ← hk, hzero]
    simp

/-- C4: for every positive input, the schedule rows share one constant
payment, satisfy principal + interest = payment exactly, and the stored
balances are non-increasing and never below 0. -/
theorem amortization_schedule_invariants
    (principal annual_rate : ℚ) (years : ℕ)
    (hp : 0 < principal) (hr : 0 < annual_rate) (hy : 1 ≤ years) :
    ∃ P sched,
      MortgageUtils.calculate_monthly_payment principal annual_rate years = some P ∧
      MortgageUtils.calculate_amortization_schedule principal annual_rate years =
        some sched ∧
      (∀ e ∈ sched, e.payment = P) ∧
      (∀ e ∈ sched, e.principal + e.interest = e.payment) ∧
      List.Chain' (fun a e => e.balance ≤ a.balance) sched ∧
      (∀ e ∈ sched, 0 ≤ e.balance) := by
  have hpay := monthly_payment_eq principal annual_rate years hr hy
  have hr12 : (0 : ℚ) < annual_rate / 12 := by positivity
  have hpow : 1 < (1 + annual_rate / 12) ^ (years * 12) :=
    one_lt_pow₀ (by linarith) (by omega)
  have hDpos : 0 < (1 + annual_rate / 12) ^ (years * 12) - 1 := by linarith
  have hPge : principal * (annual_rate / 12) ≤
      principal * ((annual_rate / 12) * (1 + annual_rate / 12) ^ (years * 12)) /
        ((1 + annual_rate / 12) ^ (years * 12) - 1) := by
    rw [le_div_iff₀ hDpos]
    have hpr : 0 ≤ principal * (annual_rate / 12) := by positivity
    nlinarith [hpr]
  refine ⟨principal * ((annual_rate / 12) * (1 + annual_rate / 12) ^ (years * 12)) /
      ((1 + annual_rate / 12) ^ (years * 12) - 1),
    MortgageUtils.scheduleFrom
      (principal * ((annual_rate / 12) * (1 + annual_rate / 12) ^ (years * 12)) /
        ((1 + annual_rate / 12) ^ (years * 12) - 1))
      (annual_rate / 12) principal 1 (years * 12), hpay, ?_, ?_, ?_, ?_, ?_⟩
  · simp only [MortgageUtils.calculate_amortization_schedule, hpay, Option.map_some']
  · intro e he; exact (scheduleFrom_payment _ _ _ _ _ e he).1
  · intro e he; exact (scheduleFrom_payment _ _ _ _ _ e he).2
  · exact scheduleFrom_chain _ _ (le_of_lt hr12) _ _ _ hPge
  · exact scheduleFrom_balance_nonneg _ _ _ _ _

/-! Evaluation lemmas for the concrete inputs. -/

theorem wHome_payment : MortgageUtils.calculate_monthly_payment 120 0 1 = some 10 := by
  norm_num [MortgageUtils.calculate_monthly_payment]

theorem wHome_amort :
    MortgageUtils.calculate_amortization_schedule 120 0 1 = some wAmort := by
  norm_num [MortgageUtils.calculate_amortization_schedule, wHome_payment, wAmort]

theorem wHome_sim : HomeSim.simulate_homeownership wHomeP = some wHomeB := by
  norm_num [HomeSim.simulate_homeownership, wHomeP, wHome_amort, wHomeB]

theorem wHomeB_get0 : wHomeB.get? 0 = some wHomeRec := by
  rw [wHomeB, buildList_get? _ (by norm_num)]
  rfl

theorem wHomeB_get1 : wHomeB.get? 1 = some wHomeRec2 := by
  rw [wHomeB, buildList_get? _ (by norm_num)]
  rfl

/-- Witness for C2 at the concrete home purchase. -/
theorem homeownership_tax_benefit_true_cost_witness :
    wHomeRec.monthly_tax_benefit =
      (wHomeRec.interest_payment + wHomeRec.property_tax_monthly) * wHomeP.tax_bracket ∧
    wHomeRec.true_monthly_cost =
      wHomeRec.total_costs_before_tax - wHomeRec.monthly_tax_benefit :=
  homeownership_tax_benefit_true_cost wHomeP wHomeB wHome_sim wHomeRec
    (List.get?_mem wHomeB_get0)

/-- Witness for C3 at a loan of 4095 at a 1200 percent annual rate over
one year. -/
theorem amortization_sum_principal_final_balance_witness :
    (0 : ℚ) < 4095 ∧ (0 : ℚ) < 12 ∧ 1 ≤ 1 ∧
    ∃ sched,
      MortgageUtils.calculate_amortization_schedule 4095 12 1 = some sched ∧
      sched.length = 1 * 12 ∧
      (sched.map MortgageUtils.Entry.principal).sum = 4095 ∧
      sched.getLast?.map MortgageUtils.Entry.balance = some 0 :=
  ⟨by norm_num, by norm_num, le_refl 1,
    amortization_sum_principal_final_balance 4095 12 1 (by norm_num) (by norm_num)
      (le_refl 1)⟩

/-- Witness for C4 at the same loan. -/
theorem amortization_schedule_invariants_witness :
    (0 : ℚ) < 4095 ∧ (0 : ℚ) < 12 ∧ 1 ≤ 1 ∧
    ∃ P sched,
      MortgageUtils.calculate_monthly_payment 4095 12 1 = some P ∧
      MortgageUtils.calculate_amortization_schedule 4095 12 1 = some sched ∧
      (∀ e ∈ sched, e.payment = P) ∧
      (∀ e ∈ sched, e.principal + e.interest = e.payment) ∧
      List.Chain' (fun a e => e.balance ≤ a.balance) sched ∧
      (∀ e ∈ sched, 0 ≤ e.balance) :=
  ⟨by norm_num, by norm_num, le_refl 1,
    amortization_schedule_invariants 4095 12 1 (by norm_num) (by norm_num) (le_refl 1)⟩

/-! C5 : cumulative running sums. -/

theorem if_empty_sum {α : Type} [DecidableEq α] (δ : α → ℚ) (acc : List α) (u : ℚ) :
    (if acc = [] then u else (acc.map δ).sum + u) = (acc.map δ).sum + u := by
  cases acc <;> simp

theorem wRental_sim :
    RentalSim.simulate_rental_property wRentalP = some wRentalB := by
  norm_num [RentalSim.simulate_rental_property, wRentalP, wHome_amort, wRentalB]

theorem wRentalB_get0 : wRentalB.get? 0 = some wRentalRec := by
  rw [wRentalB, buildList_get? _ (by norm_num)]
  rfl

theorem wRentalB_get1 : wRentalB.get? 1 = some wRentalRec2 := by
  rw [wRentalB, buildList_get? _ (by norm_num)]
  rfl

/-- C5: in both clean simulators every cumulative field recorded at
month k+1 equals the value recorded at month k plus the per-month delta
of month k+1, and extending the month loop never changes the records of
the earlier months. -/
theorem cumulative_recurrence :
    (∀ (p : HomeSim.Params) (l : List HomeSim.Monthly),
      HomeSim.simulate_homeownership p = some l →
      ∀ (k : ℕ) (a b : HomeSim.Monthly), l.get? k = some a → l.get? (k + 1) = some b →
        b.cumulative_unrecoverable = a.cumulative_unrecoverable + b.unrecoverable ∧
        b.cumulative_tax_benefits = a.cumulative_tax_benefits + b.monthly_tax_benefit ∧
        b.cumulative_true_cost = a.cumulative_true_cost + b.true_monthly_cost) ∧
    (∀ (p : RentalSim.Params) (l : List RentalSim.Monthly),
      RentalSim.simulate_rental_property p = some l →
      ∀ (k : ℕ) (a b : RentalSim.Monthly), l.get? k = some a → l.get? (k + 1) = some b →
        b.cumulative_true_cost = a.cumulative_true_cost + b.true_cost ∧
        b.cumulative_operating_income =
          a.cumulative_operating_income + b.monthly_operating_income) ∧
    (∀ (p : HomeSim.Params) (amort : List MortgageUtils.Entry) (cc : ℚ) (n : ℕ),
      (buildList (HomeSim.homeMonth p amort cc) (n + 1)).take n =
        buildList (HomeSim.homeMonth p amort cc) n) ∧
    (∀ (p : RentalSim.Params) (amort : List MortgageUtils.Entry) (cc : ℚ) (n : ℕ),
      (buildList (RentalSim.rentalMonth p amort cc) (n + 1)).take n =
        buildList (RentalSim.rentalMonth p amort cc) n) := by
  refine ⟨?_, ?_, ?_, ?_⟩
  · intro p l hl k a b ha hb
    unfold HomeSim.simulate_homeownership at hl
    rw [Option.map_eq_some'] at hl
    obtain ⟨amort, _, rfl⟩ := hl
    refine ⟨buildList_cum_rec _ HomeSim.Monthly.cumulative_unrecoverable
        HomeSim.Monthly.unrecoverable ?_ ha hb,
      buildList_cum_rec _ HomeSim.Monthly.cumulative_tax_benefits
        HomeSim.Monthly.monthly_tax_benefit ?_ ha hb,
      buildList_cum_rec _ HomeSim.Monthly.cumulative_true_cost
        HomeSim.Monthly.true_monthly_cost ?_ ha hb⟩ <;>
      intro acc m <;> cases acc with
      | nil => exact (zero_add _).symm
      | cons x t => rfl
  · intro p l hl k a b ha hb
    unfold RentalSim.simulate_rental_property at hl
    rw [Option.map_eq_some'] at hl
    obtain ⟨amort, _, rfl⟩ := hl
    refine ⟨buildList_cum_rec _ RentalSim.Monthly.cumulative_true_cost
        RentalSim.Monthly.true_cost ?_ ha hb,
      buildList_cum_rec _ RentalSim.Monthly.cumulative_operating_income
        RentalSim.Monthly.monthly_operating_income ?_ ha hb⟩ <;>
      intro acc m <;> cases acc with
      | nil => exact (zero_add _).symm
      | cons x t => rfl
  · intro p amort cc n
    exact buildList_take _ (by omega)
  · intro p amort cc n
    exact buildList_take _ (by omega)

/-- Witness for C5 at the concrete home purchase and rental purchase,
months 1 and 2. -/
theorem cumulative_recurrence_witness :
    (wHomeRec2.cumulative_unrecoverable =
        wHomeRec.cumulative_unrecoverable + wHomeRec2.unrecoverable ∧
      wHomeRec2.cumulative_tax_benefits =
        wHomeRec.cumulative_tax_benefits + wHomeRec2.monthly_tax_benefit ∧
      wHomeRec2.cumulative_true_cost =
        wHomeRec.cumulative_true_cost + wHomeRec2.true_monthly_cost) ∧
    (wRentalRec2.cumulative_true_cost =
        wRentalRec.cumulative_true_cost + wRentalRec2.true_cost ∧
      wRentalRec2.cumulative_operating_income =
        wRentalRec.cumulative_operating_income + wRentalRec2.monthly_operating_income) ∧
    (buildList (HomeSim.homeMonth wHomeP wAmort 0) 2).take 1 =
      buildList (HomeSim.homeMonth wHomeP wAmort 0) 1 :=
  ⟨cumulative_recurrence.1 wHomeP wHomeB wHome_sim 0 wHomeRec wHomeRec2
      wHomeB_get0 wHomeB_get1,
    cumulative_recurrence.2.1 wRentalP wRentalB wRental_sim 0 wRentalRec wRentalRec2
      wRentalB_get0 wRentalB_get1,
    cumulative_recurrence.2.2.1 wHomeP wAmort 0 1⟩

/-! Lemmas about the state-threaded month loops. -/

theorem rentRun_succ (p : HomeSim.RentParams) (costs : List ℚ) (n : ℕ) :
    HomeSim.rentRun p costs (n + 1) =
      ((HomeSim.rentStep p costs (HomeSim.rentRun p costs n).1
          (HomeSim.rentRun p costs n).2 (n + 1)).1,
        (HomeSim.rentRun p costs n).2 ++
          [(HomeSim.rentStep p costs (HomeSim.rentRun p costs n).1
            (HomeSim.rentRun p costs n).2 (n + 1)).2]) := rfl

theorem rentRun_length (p : HomeSim.RentParams) (costs : List ℚ) :
    ∀ n, ((HomeSim.rentRun p costs n).2).length = n := by
  intro n
  induction n with
  | zero => rfl
  | succ n ih => rw [rentRun_succ]; simp [ih]

theorem rentRun_get? (p : HomeSim.RentParams) (costs : List ℚ) :
    ∀ {n k : ℕ}, k < n →
      ((HomeSim.rentRun p costs n).2).get? k =
        some (HomeSim.rentRecord p costs (k + 1)) := by
  intro n
  induction n with
  | zero => intro k hk; omega
  | succ n ih =>
    intro k hk
    rw [rentRun_succ]
    rcases Nat.lt_or_ge k n with h | h
    · show ((HomeSim.rentRun p costs n).2 ++ _).get? k = _
      rw [List.get?_append]
      · exact ih h
      · rw [rentRun_length]; exact h
    · have hk2 : k = n := by omega
      subst hk2
      show ((HomeSim.rentRun p costs k).2 ++ _).get? k = _
      rw [List.get?_append_right (by rw [rentRun_length])]
      rw [rentRun_length, Nat.sub_self]
      rfl

theorem stockRun_succ (p : RentalSim.StockParams) (expenses : List ℚ) (n : ℕ) :
    RentalSim.stockRun p expenses (n + 1) =
      ((RentalSim.stockStep p expenses (RentalSim.stockRun p expenses n).1
          (RentalSim.stockRun p expenses n).2 (n + 1)).1,
        (RentalSim.stockRun p expenses n).2 ++
          [(RentalSim.stockStep p expenses (RentalSim.stockRun p expenses n).1
            (RentalSim.stockRun p expenses n).2 (n + 1)).2]) := rfl

theorem stockRun_length (p : RentalSim.StockParams) (expenses : List ℚ) :
    ∀ n, ((RentalSim.stockRun p expenses n).2).length = n := by
  intro n
  induction n with
  | zero => rfl
  | succ n ih => rw [stockRun_succ]; simp [ih]

theorem stockRun_get? (p : RentalSim.StockParams) (expenses : List ℚ) :
    ∀ {n k : ℕ}, k < n →
      ((RentalSim.stockRun p expenses n).2).get? k =
        some (RentalSim.stockRecord p expenses (k + 1)) := by
  intro n
  induction n with
  | zero => intro k hk; omega
  | succ n ih =>
    intro k hk
    rw [stockRun_succ]
    rcases Nat.lt_or_ge k n with h | h
    · show ((RentalSim.stockRun p expenses n).2 ++ _).get? k = _
      rw [List.get?_append]
      · exact ih h
      · rw [stockRun_length]; exact h
    · have hk2 : k = n := by omega
      subst hk2
      show ((RentalSim.stockRun p expenses k).2 ++ _).get? k = _
      rw [List.get?_append_right (by rw [stockRun_length])]
      rw [stockRun_length, Nat.sub_self]
      rfl

/-! C1 : equal-outflow coupling. -/

/-- C1: in simulate_rent_and_invest, for every month the stock
contribution plus the rent charged that month equals the homeownership
true monthly cost supplied for that month (record index k is month
k+1). -/
theorem rent_invest_equal_outflow (p : HomeSim.RentParams) (costs : List ℚ)
    (k : ℕ) (c : ℚ) (a : HomeSim.RentMonthly)
    (ha : (HomeSim.simulate_rent_and_invest p costs).get? k = some a)
    (hc : costs.get? k = some c) :
    a.monthly_contribution + a.monthly_rent = c := by
  have hk : k < p.years * 12 := by
    have h := List.get?_eq_some.mp ha
    rcases h with ⟨h, _⟩
    rw [HomeSim.simulate_rent_and_invest, rentRun_length] at h
    exact h
  rw [HomeSim.simulate_rent_and_invest, rentRun_get? p costs hk] at ha
  have haa : a = HomeSim.rentRecord p costs (k + 1) := by
    injection ha with h; exact h.symm
  subst haa
  have hcd : costs.getD k 0 = c := by
    rw [List.getD_eq_getD_get?, hc]
    rfl
  show costs.getD (k + 1 - 1) 0 -
      p.monthly_rent * (1 + p.rent_increase_rate) ^ ((k + 1 - 1) / 12) +
      p.monthly_rent * (1 + p.rent_increase_rate) ^ ((k + 1 - 1) / 12) = c
  rw [Nat.add_sub_cancel, hcd]
  ring

/-- Witness for C1: month 1 of the zero-rate rent-and-invest run with a
constant supplied cost of 1. -/
theorem rent_invest_equal_outflow_witness :
    wCosts.get? 0 = some 1 ∧
    (HomeSim.rentRecord wRentP wCosts 1).monthly_contribution +
      (HomeSim.rentRecord wRentP wCosts 1).monthly_rent = 1 :=
  ⟨rfl, rent_invest_equal_outflow wRentP wCosts 0 1 _
    (by rw [HomeSim.simulate_rent_and_invest]
        exact rentRun_get? wRentP wCosts (by norm_num [wRentP]))
    rfl⟩

/-! C6 : the annual dividend-tax event. -/

/-- A yearly accumulator that grows by d each month and resets on 12th
months equals the sum of d since the last reset. -/
theorem annual_window (d st : ℕ → ℚ) (h0 : st 0 = 0)
    (hstep : ∀ k, ¬ 12 ∣ (k + 1) → st (k + 1) = st k + d (k + 1))
    (hreset : ∀ k, 12 ∣ (k + 1) → st (k + 1) = 0) :
    ∀ k, st k = ∑ j in Finset.Ioc (12 * (k / 12)) k, d j := by
  intro k
  induction k with
  | zero => simpa using h0
  | succ k ih =>
    by_cases hdvd : 12 ∣ (k + 1)
    · rw [hreset k hdvd, show 12 * ((k + 1) / 12) = k + 1 from by omega]
      simp
    · rw [hstep k hdvd, ih, show (k + 1) / 12 = k / 12 from by omega,
        Finset.sum_Ioc_succ_top (by omega)]

theorem rent_annual_window (p : HomeSim.RentParams) (costs : List ℚ) :
    ∀ k, ((HomeSim.rentRun p costs k).1).annual_dividends =
      ∑ j in Finset.Ioc (12 * (k / 12)) k,
        (HomeSim.rentRecord p costs j).monthly_dividend := by
  refine annual_window _ _ rfl ?_ ?_
  · intro k hk
    show ((HomeSim.rentStep p costs (HomeSim.rentRun p costs k).1
        (HomeSim.rentRun p costs k).2 (k + 1)).1).annual_dividends = _
    simp only [HomeSim.rentStep, HomeSim.rentRecord, Nat.add_sub_cancel]
    rw [if_neg (by omega)]
  · intro k hk
    show ((HomeSim.rentStep p costs (HomeSim.rentRun p costs k).1
        (HomeSim.rentRun p costs k).2 (k + 1)).1).annual_dividends = 0
    simp only [HomeSim.rentStep]
    rw [if_pos (by omega)]

theorem rent_dividend_tax_on_12 (p : HomeSim.RentParams) (costs : List ℚ)
    (m : ℕ) (hm1 : 1 ≤ m) (hm : 12 ∣ m) :
    (HomeSim.rentRecord p costs m).dividend_tax =
      (∑ j in Finset.Ioc (m - 12) m,
        (HomeSim.rentRecord p costs j).monthly_dividend) * p.tax_bracket := by
  obtain ⟨k, rfl⟩ : ∃ k, m = k + 1 := ⟨m - 1, by omega⟩
  show ((HomeSim.rentStep p costs (HomeSim.rentRun p costs k).1
      (HomeSim.rentRun p costs k).2 (k + 1)).2).dividend_tax = _
  simp only [HomeSim.rentStep]
  rw [if_pos (by omega), rent_annual_window p costs k,
    show 12 * (k / 12) = k + 1 - 12 from by omega,
    Finset.sum_Ioc_succ_top (by omega)]
  rfl

theorem rent_dividend_tax_off_12 (p : HomeSim.RentParams) (costs : List ℚ)
    (m : ℕ) (hm1 : 1 ≤ m) (hm : ¬ 12 ∣ m) :
    (HomeSim.rentRecord p costs m).dividend_tax = 0 := by
  obtain ⟨k, rfl⟩ : ∃ k, m = k + 1 := ⟨m - 1, by omega⟩
  show ((HomeSim.rentStep p costs (HomeSim.rentRun p costs k).1
      (HomeSim.rentRun p costs k).2 (k + 1)).2).dividend_tax = 0
  simp only [HomeSim.rentStep]
  rw [if_neg (by omega)]

theorem rent_cum_tax_step (p : HomeSim.RentParams) (costs : List ℚ)
    (m : ℕ) (hm1 : 1 ≤ m) :
    (HomeSim.rentRecord p costs m).cumulative_dividend_tax =
      ((HomeSim.rentRun p costs (m - 1)).1).cumulative_dividend_tax +
        (HomeSim.rentRecord p costs m).dividend_tax := by
  obtain ⟨k, rfl⟩ : ∃ k, m = k + 1 := ⟨m - 1, by omega⟩
  show ((HomeSim.rentStep p costs (HomeSim.rentRun p costs k).1
      (HomeSim.rentRun p costs k).2 (k + 1)).2).cumulative_dividend_tax = _
  simp only [HomeSim.rentStep, HomeSim.rentRecord, Nat.add_sub_cancel]
  split_ifs <;> simp

theorem rentRun_state_cum_tax (p : HomeSim.RentParams) (costs : List ℚ)
    (m : ℕ) (hm1 : 1 ≤ m) :
    ((HomeSim.rentRun p costs m).1).cumulative_dividend_tax =
      (HomeSim.rentRecord p costs m).cumulative_dividend_tax := by
  obtain ⟨k, rfl⟩ : ∃ k, m = k + 1 := ⟨m - 1, by omega⟩
  rfl

theorem stock_annual_window (p : RentalSim.StockParams) (expenses : List ℚ) :
    ∀ k, ((RentalSim.stockRun p expenses k).1).annual_dividends =
      ∑ j in Finset.Ioc (12 * (k / 12)) k,
        (RentalSim.stockRecord p expenses j).monthly_dividend := by
  refine annual_window _ _ rfl ?_ ?_
  · intro k hk
    show ((RentalSim.stockStep p expenses (RentalSim.stockRun p expenses k).1
        (RentalSim.stockRun p expenses k).2 (k + 1)).1).annual_dividends = _
    simp only [RentalSim.stockStep, RentalSim.stockRecord, Nat.add_sub_cancel]
    rw [if_neg (by omega)]
  · intro k hk
    show ((RentalSim.stockStep p expenses (RentalSim.stockRun p expenses k).1
        (RentalSim.stockRun p expenses k).2 (k + 1)).1).annual_dividends = 0
    simp only [RentalSim.stockStep]
    rw [if_pos (by omega)]

theorem stock_dividend_tax_on_12 (p : RentalSim.StockParams) (expenses : List ℚ)
    (m : ℕ) (hm1 : 1 ≤ m) (hm : 12 ∣ m) :
    (RentalSim.stockRecord p expenses m).dividend_tax =
      (∑ j in Finset.Ioc (m - 12) m,
        (RentalSim.stockRecord p expenses j).monthly_dividend) * p.tax_bracket := by
  obtain ⟨k, rfl⟩ : ∃ k, m = k + 1 := ⟨m - 1, by omega⟩
  show ((RentalSim.stockStep p expenses (RentalSim.stockRun p expenses k).1
      (RentalSim.stockRun p expenses k).2 (k + 1)).2).dividend_tax = _
  simp only [RentalSim.stockStep]
  rw [if_pos (by omega), stock_annual_window p expenses k,
    show 12 * (k / 12) = k + 1 - 12 from by omega,
    Finset.sum_Ioc_succ_top (by omega)]
  rfl

theorem stock_dividend_tax_off_12 (p : RentalSim.StockParams) (expenses : List ℚ)
    (m : ℕ) (hm1 : 1 ≤ m) (hm : ¬ 12 ∣ m) :
    (RentalSim.stockRecord p expenses m).dividend_tax = 0 := by
  obtain ⟨k, rfl⟩ : ∃ k, m = k + 1 := ⟨m - 1, by omega⟩
  show ((RentalSim.stockStep p expenses (RentalSim.stockRun p expenses k).1
      (RentalSim.stockRun p expenses k).2 (k + 1)).2).dividend_tax = 0
  simp only [RentalSim.stockStep]
  rw [if_neg (by omega)]

theorem stock_cum_tax_step (p : RentalSim.StockParams) (expenses : List ℚ)
    (m : ℕ) (hm1 : 1 ≤ m) :
    (RentalSim.stockRecord p expenses m).cumulative_cost =
      ((RentalSim.stockRun p expenses (m - 1)).1).cumulative_dividend_tax +
        (RentalSim.stockRecord p expenses m).dividend_tax := by
  obtain ⟨k, rfl⟩ : ∃ k, m = k + 1 := ⟨m - 1, by omega⟩
  show ((RentalSim.stockStep p expenses (RentalSim.stockRun p expenses k).1
      (RentalSim.stockRun p expenses k).2 (k + 1)).2).cumulative_cost = _
  simp only [RentalSim.stockStep, RentalSim.stockRecord, Nat.add_sub_cancel]
  split_ifs <;> simp

theorem stockRun_state_cum_tax (p : RentalSim.StockParams) (expenses : List ℚ)
    (m : ℕ) (hm1 : 1 ≤ m) :
    ((RentalSim.stockRun p expenses m).1).cumulative_dividend_tax =
      (RentalSim.stockRecord p expenses m).cumulative_cost := by
  obtain ⟨k, rfl⟩ : ∃ k, m = k + 1 := ⟨m - 1, by omega⟩
  rfl

/-- C6: in both complementary investment simulators the dividend tax of
a record is 0 except on 12th months, where it is the year's accumulated
dividends times the tax bracket, it is added into the running cumulative
dividend tax, and the annual accumulator resets to 0 after a 12th
month (record index k is month k+1; the cumulative dividend tax of the
stock-only simulator is stored in the cumulative_cost field). -/
theorem annual_dividend_tax_event :
    (∀ (p : HomeSim.RentParams) (costs : List ℚ) (k : ℕ) (a : HomeSim.RentMonthly),
      (HomeSim.simulate_rent_and_invest p costs).get? k = some a →
      (¬ 12 ∣ (k + 1) → a.dividend_tax = 0) ∧
      (12 ∣ (k + 1) →
        a.dividend_tax = (∑ j in Finset.Ioc (k + 1 - 12) (k + 1),
          (HomeSim.rentRecord p costs j).monthly_dividend) * p.tax_bracket ∧
        ((HomeSim.rentRun p costs (k + 1)).1).annual_dividends = 0) ∧
      (∀ b, (HomeSim.simulate_rent_and_invest p costs).get? (k + 1) = some b →
        b.cumulative_dividend_tax = a.cumulative_dividend_tax + b.dividend_tax)) ∧
    (∀ (p : RentalSim.StockParams) (expenses : List ℚ) (k : ℕ)
        (a : RentalSim.StockMonthly),
      (RentalSim.simulate_stock_investment p expenses).get? k = some a →
      (¬ 12 ∣ (k + 1) → a.dividend_tax = 0) ∧
      (12 ∣ (k + 1) →
        a.dividend_tax = (∑ j in Finset.Ioc (k + 1 - 12) (k + 1),
          (RentalSim.stockRecord p expenses j).monthly_dividend) * p.tax_bracket ∧
        ((RentalSim.stockRun p expenses (k + 1)).1).annual_dividends = 0) ∧
      (∀ b, (RentalSim.simulate_stock_investment p expenses).get? (k + 1) = some b →
        b.cumulative_cost = a.cumulative_cost + b.dividend_tax)) := by
  constructor
  · intro p costs k a ha
    have hk : k < p.years * 12 := by
      have h := List.get?_eq_some.mp ha
      rcases h with ⟨h, _⟩
      rw [HomeSim.simulate_rent_and_invest, rentRun_length] at h
      exact h
    rw [HomeSim.simulate_rent_and_invest, rentRun_get? p costs hk] at ha
    have haa : a = HomeSim.rentRecord p costs (k + 1) := by
      injection ha with h; exact h.symm
    subst haa
    refine ⟨fun h => rent_dividend_tax_off_12 p costs (k + 1) (by omega) h,
      fun h => ⟨rent_dividend_tax_on_12 p costs (k + 1) (by omega) h, ?_⟩, ?_⟩
    · rw [rent_annual_window p costs (k + 1),
        show 12 * ((k + 1) / 12) = k + 1 from by omega]
      simp
    · intro b hb
      have hk2 : k + 1 < p.years * 12 := by
        have h := List.get?_eq_some.mp hb
        rcases h with ⟨h, _⟩
        rw [HomeSim.simulate_rent_and_invest, rentRun_length] at h
        exact h
      rw [HomeSim.simulate_rent_and_invest, rentRun_get? p costs hk2] at hb
      have hbb : b = HomeSim.rentRecord p costs (k + 2) := by
        injection hb with h; exact h.symm
      subst hbb
      rw [rent_cum_tax_step p costs (k + 2) (by omega),
        show k + 2 - 1 = k + 1 from by omega,
        rentRun_state_cum_tax p costs (k + 1) (by omega)]
  · intro p expenses k a ha
    have hk : k < p.years * 12 := by
      have h := List.get?_eq_some.mp ha
      rcases h with ⟨h, _⟩
      rw [RentalSim.simulate_stock_investment, stockRun_length] at h
      exact h
    rw [RentalSim.simulate_stock_investment, stockRun_get? p expenses hk] at ha
    have haa : a = RentalSim.stockRecord p expenses (k + 1) := by
      injection ha with h; exact h.symm
    subst haa
    refine ⟨fun h => stock_dividend_tax_off_12 p expenses (k + 1) (by omega) h,
      fun h => ⟨stock_dividend_tax_on_12 p expenses (k + 1) (by omega) h, ?_⟩, ?_⟩
    · rw [stock_annual_window p expenses (k + 1),
        show 12 * ((k + 1) / 12) = k + 1 from by omega]
      simp
    · intro b hb
      have hk2 : k + 1 < p.years * 12 := by
        have h := List.get?_eq_some.mp hb
        rcases h with ⟨h, _⟩
        rw [RentalSim.simulate_stock_investment, stockRun_length] at h
        exact h
      rw [RentalSim.simulate_stock_investment, stockRun_get? p expenses hk2] at hb
      have hbb : b = RentalSim.stockRecord p expenses (k + 2) := by
        injection hb with h; exact h.symm
      subst hbb
      rw [stock_cum_tax_step p expenses (k + 2) (by omega),
        show k + 2 - 1 = k + 1 from by omega,
        stockRun_state_cum_tax p expenses (k + 1) (by omega)]

/-- Witness for C6: months 1 and 12 of the zero-rate runs. -/
theorem annual_dividend_tax_event_witness :
    (HomeSim.rentRecord wRentP wCosts 1).dividend_tax = 0 ∧
    ((HomeSim.rentRecord wRentP wCosts 12).dividend_tax =
      (∑ j in Finset.Ioc 0 12,
        (HomeSim.rentRecord wRentP wCosts j).monthly_dividend) * wRentP.tax_bracket ∧
      ((HomeSim.rentRun wRentP wCosts 12).1).annual_dividends = 0) ∧
    (RentalSim.stockRecord wStockP wExpenses 1).dividend_tax = 0 :=
  ⟨(annual_dividend_tax_event.1 wRentP wCosts 0 _
      (by rw [HomeSim.simulate_rent_and_invest]
          exact rentRun_get? wRentP wCosts (by norm_num [wRentP]))).1 (by decide),
    (annual_dividend_tax_event.1 wRentP wCosts 11 _
      (by rw [HomeSim.simulate_rent_and_invest]
          exact rentRun_get? wRentP wCosts (by norm_num [wRentP]))).2.1 (by decide),
    (annual_dividend_tax_event.2 wStockP wExpenses 0 _
      (by rw [RentalSim.simulate_stock_investment]
          exact stockRun_get? wStockP wExpenses (by norm_num [wStockP]))).1 (by decide)⟩

/-! C8 : capital gains tax. -/

/-- C8: calculate_capital_gains_tax returns 0 for every gain at most 0;
for a positive gain it returns gain times the short rate when the
holding period is strictly below one year and gain times the long rate
otherwise; a holding period of exactly 1 is taxed at the long rate. -/
theorem capital_gains_tax_cases (gain holding s l : ℚ) :
    (gain ≤ 0 → TaxUtils.calculate_capital_gains_tax gain holding s l = 0) ∧
    (0 < gain → holding < 1 →
      TaxUtils.calculate_capital_gains_tax gain holding s l = gain * s) ∧
    (0 < gain → 1 ≤ holding →
      TaxUtils.calculate_capital_gains_tax gain holding s l = gain * l) ∧
    (0 < gain → TaxUtils.calculate_capital_gains_tax gain 1 s l = gain * l) := by
  refine ⟨fun hg => ?_, fun hg hh => ?_, fun hg hh => ?_, fun hg => ?_⟩ <;>
    simp only [TaxUtils.calculate_capital_gains_tax] <;> split_ifs <;>
    first | rfl | linarith

/-- Witness for C8: a gain of 5 held exactly one year is taxed at the
long-term default rate 0.15. -/
theorem capital_gains_tax_cases_witness :
    (0 : ℚ) < 5 ∧
    TaxUtils.calculate_capital_gains_tax 5 1 (1 / 4) (3 / 20) = 5 * (3 / 20) :=
  ⟨by norm_num, (capital_gains_tax_cases 5 1 (1 / 4) (3 / 20)).2.2.2 (by norm_num)⟩

/-! C7 : degenerate horizon. -/

/-- Counterexample to C7: at a zero mortgage term the payment formula
divides by zero (ZeroDivisionError, modelled as `none`), so the
schedule call does not return a zero-entry schedule; and at a zero
horizon the live-in summary indexes the empty monthly frame
(IndexError, modelled as `none`) instead of returning zeros. -/
theorem degenerate_horizon_counterexample :
    MortgageUtils.calculate_amortization_schedule 100000 (1 / 20) 0 ≠ some [] ∧
    MortgageUtils.calculate_amortization_schedule 100000 (1 / 20) 0 = none ∧
    HomeSim.homeSummary wZeroP = none := by
  have h1 : MortgageUtils.calculate_amortization_schedule 100000 (1 / 20) 0 = none := by
    norm_num [MortgageUtils.calculate_amortization_schedule,
      MortgageUtils.calculate_monthly_payment]
  have h2 : MortgageUtils.calculate_amortization_schedule 100000 (1 / 20) 0 ≠ some [] := by
    intro h
    rw [h1] at h
    cases h
  refine ⟨h2, h1, ?_⟩
  simp only [HomeSim.homeSummary, HomeSim.simulate_homeownership]
  cases h : MortgageUtils.calculate_amortization_schedule
      (wZeroP.purchase_price - wZeroP.purchase_price * wZeroP.down_payment_pct)
      wZeroP.mortgage_rate wZeroP.mortgage_years with
  | none => rfl
  | some amort => simp [wZeroP, wHomeP, buildList]

/-- C7 as amended: with a zero mortgage term the payment formula (hence
the schedule) raises a division error instead of producing zero entries,
and with a zero horizon the month loop does produce zero records but the
summary construction raises on the empty frame instead of returning 0. -/
theorem degenerate_horizon_raises :
    (∀ principal annual_rate : ℚ,
      MortgageUtils.calculate_monthly_payment principal annual_rate 0 = none ∧
      MortgageUtils.calculate_amortization_schedule principal annual_rate 0 = none) ∧
    (∀ p : HomeSim.Params, p.years = 0 →
      HomeSim.homeSummary p = none ∧
      ∀ l, HomeSim.simulate_homeownership p = some l → l = []) ∧
    (∀ p : RentalSim.Params, p.years = 0 →
      RentalSim.rentalSummary p = none ∧
      ∀ l, RentalSim.simulate_rental_property p = some l → l = []) := by
  have hpay : ∀ principal annual_rate : ℚ,
      MortgageUtils.calculate_monthly_payment principal annual_rate 0 = none := by
    intro principal annual_rate
    simp [MortgageUtils.calculate_monthly_payment]
  refine ⟨fun principal annual_rate => ⟨hpay principal annual_rate, ?_⟩, ?_, ?_⟩
  · simp [MortgageUtils.calculate_amortization_schedule, hpay]
  · intro p hp
    constructor
    · simp only [HomeSim.homeSummary, HomeSim.simulate_homeownership]
      cases h : MortgageUtils.calculate_amortization_schedule
          (p.purchase_price - p.purchase_price * p.down_payment_pct)
          p.mortgage_rate p.mortgage_years with
      | none => rfl
      | some amort => simp [hp, buildList]
    · intro l hl
      unfold HomeSim.simulate_homeownership at hl
      rw [Option.map_eq_some'] at hl
      obtain ⟨amort, _, rfl⟩ := hl
      rw [hp]
      rfl
  · intro p hp
    constructor
    · simp only [RentalSim.rentalSummary, RentalSim.simulate_rental_property]
      cases h : MortgageUtils.calculate_amortization_schedule
          (p.purchase_price - p.purchase_price * p.down_payment_pct)
          p.mortgage_rate p.mortgage_years with
      | none => rfl
      | some amort => simp [hp, buildList]
    · intro l hl
      unfold RentalSim.simulate_rental_property at hl
      rw [Option.map_eq_some'] at hl
      obtain ⟨amort, _, rfl⟩ := hl
      rw [hp]
      rfl

/-- Witness for the amended C7 at concrete inputs. -/
theorem degenerate_horizon_raises_witness :
    wZeroP.years = 0 ∧ HomeSim.homeSummary wZeroP = none ∧
    MortgageUtils.calculate_monthly_payment 100000 (1 / 20) 0 = none :=
  ⟨rfl, (degenerate_horizon_raises.2.1 wZeroP rfl).1,
    (degenerate_horizon_raises.1 100000 (1 / 20)).1⟩

/-! C9 : the legacy simulator never returns. -/

/-- The first iteration of the legacy month loop always fails: the
record dict reads monthly_operating_income, which is not among the
names the function body assigns. -/
theorem simLoop_first_error (p : SimPy.Params) (amort : List MortgageUtils.Entry)
    (dp cc loan ii : ℚ) (t month : ℕ) (cumU cumOI : ℚ) :
    SimPy.simLoop p amort dp cc loan ii (t + 1) month cumU cumOI =
      Except.error "NameError: monthly_operating_income" := rfl

/-- C9: the legacy simulate_homeownership of simulation.py builds each
monthly record from the name monthly_operating_income, which is never
assigned; for every well-formed input with a positive horizon the run
raises a NameError on the first loop iteration and never returns. -/
theorem legacy_homeownership_name_error (p : SimPy.Params)
    (hy : 1 ≤ p.years) (hmy : 1 ≤ p.mortgage_years) (hr : 0 ≤ p.mortgage_rate) :
    SimPy.simulate_homeownership p =
      Except.error "NameError: monthly_operating_income" := by
  have hpay : ∃ mp, MortgageUtils.calculate_monthly_payment
      (p.purchase_price - p.purchase_price * p.down_payment_pct) p.mortgage_rate
      p.mortgage_years = some mp := by
    rcases eq_or_lt_of_le hr with h0 | hpos
    · have hne : ((p.mortgage_years : ℚ) * 12) ≠ 0 := by
        have h2 : (0 : ℚ) < (p.mortgage_years : ℚ) * 12 := by
          have h3 : (0 : ℚ) < (p.mortgage_years : ℚ) := by
            exact_mod_cast Nat.pos_of_ne_zero (by omega)
          linarith
        exact ne_of_gt h2
      refine ⟨(p.purchase_price - p.purchase_price * p.down_payment_pct) /
        ((p.mortgage_years : ℚ) * 12), ?_⟩
      simp only [MortgageUtils.calculate_monthly_payment]
      rw [if_pos h0.symm, if_neg hne]
    · exact ⟨_, monthly_payment_eq _ _ _ hpos hmy⟩
  obtain ⟨mp, hmp⟩ := hpay
  have hsched : MortgageUtils.calculate_amortization_schedule
      (p.purchase_price - p.purchase_price * p.down_payment_pct) p.mortgage_rate
      p.mortgage_years = some (MortgageUtils.scheduleFrom mp (p.mortgage_rate / 12)
        (p.purchase_price - p.purchase_price * p.down_payment_pct) 1
        (p.mortgage_years * 12)) := by
    simp only [MortgageUtils.calculate_amortization_schedule, hmp, Option.map_some']
  simp only [SimPy.simulate_homeownership]
  rw [hsched]
  obtain ⟨t, ht⟩ : ∃ t, p.years * 12 = t + 1 := ⟨p.years * 12 - 1, by omega⟩
  rw [ht]
  exact simLoop_first_error p _ _ _ _ _ t 1 0 0

/-- Witness for C9 at the concrete legacy input. -/
theorem legacy_homeownership_name_error_witness :
    1 ≤ wSimPyP.years ∧ 1 ≤ wSimPyP.mortgage_years ∧
    (0 : ℚ) ≤ wSimPyP.mortgage_rate ∧
    SimPy.simulate_homeownership wSimPyP =
      Except.error "NameError: monthly_operating_income" :=
  ⟨le_refl 1, le_refl 1, le_refl 0,
    legacy_homeownership_name_error wSimPyP (le_refl 1) (le_refl 1) (le_refl 0)⟩

/-! C10 : the hard-coded selling-cost rate. -/

theorem buildList_getLast? {α : Type} (f : List α → ℕ → α) (n : ℕ) :
    (buildList f (n + 1)).getLast? = some (f (buildList f n) (n + 1)) := by
  rw [buildList_succ]
  exact List.getLast?_concat _

/-- C10: simulate_rental_property computes its final selling costs with
the hard-coded 6 percent rate, so the summary ignores any selling-cost
fraction supplied in the parameters. -/
theorem rental_fixed_selling_rate (p : RentalSim.Params) (s : RentalSim.Summary)
    (hs : RentalSim.rentalSummary p = some s) :
    s.selling_costs = s.final_property_value * (6 / 100) ∧
    ∀ q : ℚ, RentalSim.rentalSummary { p with selling_cost_pct := q } = some s := by
  constructor
  · simp only [RentalSim.rentalSummary] at hs
    rw [Option.bind_eq_some] at hs
    obtain ⟨df, hdf, hs2⟩ := hs
    rw [Option.map_eq_some'] at hs2
    obtain ⟨last, hlast, rfl⟩ := hs2
    rfl
  · intro q
    exact hs

theorem wRentalSummary_eq :
    RentalSim.rentalSummary wRentalP = some wRentalSummary := by
  simp only [RentalSim.rentalSummary, wRental_sim, Option.some_bind]
  rw [show wRentalB = buildList (RentalSim.rentalMonth wRentalP wAmort 0) 12 from rfl,
    buildList_getLast?]
  rfl

/-- Witness for C10 at the concrete rental purchase. -/
theorem rental_fixed_selling_rate_witness :
    RentalSim.rentalSummary wRentalP = some wRentalSummary ∧
    wRentalSummary.selling_costs = wRentalSummary.final_property_value * (6 / 100) :=
  ⟨wRentalSummary_eq,
    (rental_fixed_selling_rate wRentalP wRentalSummary wRentalSummary_eq).1⟩
